import Mathlib

/-!
Shallow embedding of `src/contributor_folders/isidora/pace_west.py`.

The script is a linear pipeline: extract a `YYYYMMDD` date from each granule
path with the regex `PACE_OCI\.(\d{8})` (fail fast on a non-matching path),
parse it with `pd.to_datetime(date_str, format="%Y%m%d")`, check that the
number of dates equals the number of files, open the granules as one dataset
concatenated along a new `time` dimension, overwrite the `time` coordinate
with the extracted dates, select the time slice nearest to a target, mask
non-positive values (`.where(lambda x: x > 0)`) and clip to a floor of 0.01.

Modelling choices:
* a granule path is a `String`; the regex is embedded as a direct scan for
  the literal token `PACE_OCI.` followed by eight digit characters;
* `pd.to_datetime(_, format="%Y%m%d")` is embedded as a strict fixed-width
  parse that fails when the eight digits do not encode a valid Gregorian
  calendar date, or when the date falls outside the representable range of
  pandas `Timestamp` (whose nanosecond epoch offsets limit dates to
  1677-09-22 .. 2262-04-11 at midnight); error strings paraphrase pandas;
* data values are exact rationals, with `none` standing for NaN / missing
  (the comparisons and the 0.01 floor used by the script are order facts
  on which exact rationals and floats agree);
* nearest-time selection embeds pandas `Index._get_nearest_indexer` for a
  monotonically increasing axis: pad (last label at most the target) and
  backfill (first label at least the target) candidates, the pad candidate
  winning only when its distance is strictly smaller (`op = operator.lt`);
  timestamps are compared through their day ordinals, which preserves
  distances and ties for midnight timestamps.
-/

namespace PaceWest

/-- Calendar date as produced by `pd.to_datetime(date_str, format="%Y%m%d")`
(the time-of-day part is always midnight here, so it is omitted). -/
structure Timestamp where
  year : Nat
  month : Nat
  day : Nat
deriving DecidableEq, Repr

/-- Gregorian leap-year rule. -/
def isLeap (y : Nat) : Bool := y % 4 == 0 && (y % 100 != 0 || y % 400 == 0)

/-- Number of days in a month of the proleptic Gregorian calendar. -/
def daysInMonth (y m : Nat) : Nat :=
  if m == 2 then (if isLeap y then 29 else 28)
  else if m == 4 || m == 6 || m == 9 || m == 11 then 30
  else 31

/-- Validity of a calendar date, as enforced by Python `datetime` /
pandas when parsing with an explicit format. -/
def calendarOk (y m d : Nat) : Bool :=
  decide (1 ≤ m ∧ m ≤ 12 ∧ 1 ≤ d ∧ d ≤ daysInMonth y m)

/-- Day count of a civil date in an era-based encoding (Gregorian calendar,
days counted from 0000-03-01); all intermediate values are non-negative for
the years that concern us, so the computation lives in `Nat`. -/
def civilDays (y m d : Nat) : Nat :=
  let yadj := if m ≤ 2 then y - 1 else y
  let era := yadj / 400
  let yoe := yadj - era * 400
  let mp := (m + 9) % 12
  let doy := (153 * mp + 2) / 5 + d - 1
  let doe := yoe * 365 + yoe / 4 - yoe / 100 + doy
  era * 146097 + doe

/-- Day ordinal of a timestamp relative to the Unix epoch 1970-01-01. -/
def ordOf (t : Timestamp) : Int :=
  (civilDays t.year t.month t.day : Int) - 719468

/-- Smallest midnight date representable as a pandas `Timestamp`
(`pd.Timestamp.min` is 1677-09-21T00:12:43, so midnight of 1677-09-22). -/
def pdMinOrd : Int := ordOf ⟨1677, 9, 22⟩

/-- Largest midnight date representable as a pandas `Timestamp`
(`pd.Timestamp.max` is 2262-04-11T23:47:16). -/
def pdMaxOrd : Int := ordOf ⟨2262, 4, 11⟩

/-- Representability of a midnight date as a pandas nanosecond `Timestamp`. -/
def tsBoundsOk (y m d : Nat) : Bool :=
  decide (pdMinOrd ≤ ordOf ⟨y, m, d⟩ ∧ ordOf ⟨y, m, d⟩ ≤ pdMaxOrd)

/-- Character class of the regex `\d`, i.e. ASCII `[0-9]`. -/
def isDigitChar (c : Char) : Bool := decide (48 ≤ c.toNat ∧ c.toNat ≤ 57)

/-- Numeric value of a digit string, most significant digit first. -/
def digitsToNat (l : List Char) : Nat :=
  l.foldl (fun a c => 10 * a + (c.toNat - 48)) 0

/-- Error string of pandas when a string fails to parse under an explicit
format (paraphrased, apostrophes and the offending data omitted). -/
def formatErrMsg : String := "time data does not match format %Y%m%d"

/-- Error string of pandas for a parsed date outside `Timestamp` range
(paraphrased). -/
def oobErrMsg : String := "Out of bounds nanosecond timestamp"

/-- Embeds `pd.to_datetime(date_str, format="%Y%m%d")` on the captured digit
group: a strict fixed-width parse of eight digits into year, month and day,
failing when the components do not form a valid calendar date or when the
date is outside the pandas `Timestamp` range. -/
def to_datetime (g : List Char) : Except String Timestamp :=
  if g.length == 8 && g.all isDigitChar then
    let n := digitsToNat g
    let y := n / 10000
    let m := n / 100 % 100
    let d := n % 100
    if calendarOk y m d then
      if tsBoundsOk y m d then Except.ok ⟨y, m, d⟩
      else Except.error oobErrMsg
    else Except.error formatErrMsg
  else Except.error formatErrMsg

/-- Characters of the literal part of the regex `PACE_OCI\.(\d{8})`. -/
def paceToken : List Char := "PACE_OCI.".toList

/-- Attempts to match the regex `PACE_OCI\.(\d{8})` at the head of `cs`,
returning the captured digit group on success. -/
def matchPaceAt (cs : List Char) : Option (List Char) :=
  if paceToken.isPrefixOf cs then
    let g := (cs.drop 9).take 8
    if g.length == 8 && g.all isDigitChar then some g else none
  else none

/-- Embeds `date_pattern.search`: scans positions left to right and returns
the digit group of the leftmost match of `PACE_OCI\.(\d{8})`, if any. -/
def searchPace : List Char → Option (List Char)
  | [] => none
  | c :: cs =>
    match matchPaceAt (c :: cs) with
    | some g => some g
    | none => searchPace cs

/-- Embeds one iteration of the extraction loop on a single path: regex
search, the script's own `ValueError` when there is no match, then
`pd.to_datetime` on the captured group. -/
def extractDate (path : String) : Except String Timestamp :=
  match searchPace path.toList with
  | none => Except.error ("Could not extract date from: " ++ path)
  | some g => to_datetime g

/-- Remote granule handle as produced by `earthaccess.open`: a `path`
attribute, the product's own embedded time metadata (which the script
distrusts and later overwrites), and the data payload. -/
structure Granule (α : Type) where
  path : String
  tmeta : Timestamp
  data : α

/-- Embeds the extraction loop `for f in fileset: ...`: one date appended
per granule, the first failure aborting the whole loop. -/
def extractDates {α : Type} : List (Granule α) → Except String (List Timestamp)
  | [] => Except.ok []
  | f :: fs => do
    let d ← extractDate f.path
    let ds ← extractDates fs
    pure (d :: ds)

/-- Embeds the post-loop sanity check
`if len(dates) != len(fileset): raise ValueError(...)`. -/
def sanityCheck {α : Type} (dates : List Timestamp) (fileset : List (Granule α)) :
    Except String Unit :=
  if dates.length ≠ fileset.length then
    Except.error ("Mismatch: found " ++ toString dates.length ++ " dates for "
      ++ toString fileset.length ++ " files")
  else Except.ok ()

/-- Dataset assembled along a new `time` dimension: a time coordinate and
one data slice per granule, stacked positionally. -/
structure Dataset (α : Type) where
  time : List Timestamp
  slices : List α
deriving DecidableEq, Repr

/-- Embeds `xr.open_mfdataset(fileset, combine="nested", concat_dim="time")`:
each granule contributes one slice, in input order; the initial time
coordinate carries the granules' own (untrusted) embedded metadata. -/
def open_mfdataset {α : Type} (fileset : List (Granule α)) : Dataset α :=
  { time := fileset.map (fun f => f.tmeta), slices := fileset.map (fun f => f.data) }

/-- Embeds `CHL.assign_coords(time=("time", dates))`: replaces the time
coordinate wholesale; xarray raises when the new coordinate's length does
not match the size of the `time` dimension. -/
def assign_coords {α : Type} (ds : Dataset α) (dates : List Timestamp) :
    Except String (Dataset α) :=
  if dates.length = ds.slices.length then
    Except.ok { time := dates, slices := ds.slices }
  else Except.error "conflicting sizes for dimension time"

/-- Code that runs after the extraction loop: the sanity check, then dataset
assembly and coordinate correction. -/
def postLoop {α : Type} (dates : List Timestamp) (fileset : List (Granule α)) :
    Except String (Dataset α) := do
  let _ ← sanityCheck dates fileset
  let chl := open_mfdataset fileset
  assign_coords chl dates

/-- The whole pipeline from an opened fileset to the time-corrected dataset. -/
def processPipeline {α : Type} (fileset : List (Granule α)) :
    Except String (Dataset α) := do
  let dates ← extractDates fileset
  postLoop dates fileset

/-- Pad indexer of pandas (`method="pad"`) on a monotonically increasing
axis: index of the last label at most the target. -/
def padIndexer (axis : List Int) (t : Int) : Option Nat :=
  let k := (axis.filter (fun a => a ≤ t)).length
  if k = 0 then none else some (k - 1)

/-- Backfill indexer of pandas (`method="backfill"`) on a monotonically
increasing axis: index of the first label at least the target. -/
def backfillIndexer (axis : List Int) (t : Int) : Option Nat :=
  let k := (axis.filter (fun a => a < t)).length
  if k = axis.length then none else some k

/-- Embeds pandas `Index._get_nearest_indexer` for a monotonically
increasing axis: the pad candidate is chosen only when its distance is
strictly smaller than the backfill candidate's (`op = operator.lt`), so an
exact tie resolves to the backfill (later) label. -/
def nearestIndexer (axis : List Int) (t : Int) : Option Nat :=
  match padIndexer axis t, backfillIndexer axis t with
  | none, r => r
  | some l, none => some l
  | some l, some r =>
    if (axis.getD l 0 - t).natAbs < (axis.getD r 0 - t).natAbs then some l
    else some r

/-- Embeds `.sel(time=time, method="nearest")`: nearest-neighbour lookup of
the target on the time coordinate, returning the selected time label and
data slice. -/
def sel_time_nearest {α : Type} (ds : Dataset α) (t : Timestamp) :
    Option (Timestamp × α) :=
  match nearestIndexer (ds.time.map ordOf) (ordOf t) with
  | none => none
  | some i =>
    match ds.time[i]?, ds.slices[i]? with
    | some τ, some s => some (τ, s)
    | _, _ => none

/-- Embeds `.where(lambda x: x > 0)` on one cell: a value not greater than
zero becomes NaN (`none`); NaN stays NaN (in numpy `NaN > 0` is false). -/
def where_pos (v : Option ℚ) : Option ℚ :=
  match v with
  | some x => if 0 < x then some x else none
  | none => none

/-- Embeds `.clip(min=q)` on one cell: a defined value below the floor is
replaced by the floor; NaN propagates unchanged. -/
def clip_min (q : ℚ) (v : Option ℚ) : Option ℚ :=
  v.map (fun x => if x < q then q else x)

/-- Per-cell cleaning step of the script: zero-masking then the 0.01 floor. -/
def clean_value (v : Option ℚ) : Option ℚ := clip_min (1/100) (where_pos v)

/-- Embeds the two cleaning lines of the script on a whole array:
`.where(lambda x: x > 0)` followed by `.clip(min=0.01)`. -/
def clean_array (xs : List (Option ℚ)) : List (Option ℚ) :=
  (xs.map where_pos).map (clip_min (1/100))

/-- Reading of the spec's words for claim C1, kept separate from the source
embedding `to_datetime`: the eight digits read as `YYYYMMDD`, the first four
the year, the next two the month, the last two the day. -/
def specDecodeYYYYMMDD (g : List Char) : Option Timestamp :=
  if g.length == 8 && g.all isDigitChar then
    some ⟨digitsToNat (g.take 4), digitsToNat ((g.drop 4).take 2),
      digitsToNat (g.drop 6)⟩
  else none

/-- Two-slice dataset with time axis 2024-06-04, 2024-06-10, as in the
spec's nearest-selection example. -/
def dsJune : Dataset Nat := { time := [⟨2024, 6, 4⟩, ⟨2024, 6, 10⟩], slices := [0, 1] }

/-! ### Helper lemmas -/

/-- The cleaning of a whole array is the per-cell cleaning mapped over it. -/
lemma clean_array_eq_map (xs : List (Option ℚ)) :
    clean_array xs = xs.map clean_value := by
  simp only [clean_array, List.map_map]
  rfl

/-- A non-positive cell is masked and the mask survives clipping. -/
lemma clean_value_nonpos (x : ℚ) (hx : x ≤ 0) : clean_value (some x) = none := by
  have hw : where_pos (some x) = none := by simp [where_pos, not_lt.mpr hx]
  show clip_min (1/100) (where_pos (some x)) = none
  rw [hw]
  rfl

/-- A positive cell below the floor is raised to the floor. -/
lemma clean_value_small (x : ℚ) (h0 : 0 < x) (hf : x < 1/100) :
    clean_value (some x) = some (1/100) := by
  have hw : where_pos (some x) = some x := by simp [where_pos, h0]
  show clip_min (1/100) (where_pos (some x)) = some (1/100)
  rw [hw]
  show some (if x < 1/100 then 1/100 else x) = some (1/100)
  rw [if_pos hf]

/-- A cell at or above the floor passes through unchanged. -/
lemma clean_value_large (x : ℚ) (hf : 1/100 ≤ x) : clean_value (some x) = some x := by
  have h0 : 0 < x := lt_of_lt_of_le (by norm_num) hf
  have hw : where_pos (some x) = some x := by simp [where_pos, h0]
  show clip_min (1/100) (where_pos (some x)) = some x
  rw [hw]
  show some (if x < 1/100 then 1/100 else x) = some x
  rw [if_neg (not_lt.mpr hf)]

/-- Per-cell cleaning is idempotent. -/
lemma clean_value_idem (v : Option ℚ) :
    clean_value (clean_value v) = clean_value v := by
  rcases v with _ | x
  · rfl
  · by_cases h0 : 0 < x
    · by_cases hf : x < 1/100
      · rw [clean_value_small x h0 hf]
        exact clean_value_large (1/100) (le_refl _)
      · have h1 := clean_value_large x (not_lt.mp hf)
        rw [h1]
        exact h1
    · have h1 := clean_value_nonpos x (not_lt.mp h0)
      rw [h1]
      rfl

end PaceWest

namespace PaceWest

/-- Unfolding of one step of the extraction loop. -/
lemma extractDates_cons {α : Type} (f : Granule α) (fs : List (Granule α)) :
    extractDates (f :: fs) = Except.bind (extractDate f.path)
      (fun d => Except.bind (extractDates fs) (fun ds => Except.ok (d :: ds))) := rfl

/-- The extraction loop appends exactly one date per granule. -/
lemma extractDates_ok_length {α : Type} :
    ∀ (fs : List (Granule α)) (ds : List Timestamp),
      extractDates fs = Except.ok ds → ds.length = fs.length := by
  intro fs
  induction fs with
  | nil =>
    intro ds h
    simp only [extractDates, Except.ok.injEq] at h
    rw [← h]
    rfl
  | cons f fs ih =>
    intro ds h
    rw [extractDates_cons] at h
    cases hd : extractDate f.path with
    | error e =>
      rw [hd] at h
      simp [Except.bind] at h
    | ok d =>
      rw [hd] at h
      cases hds : extractDates fs with
      | error e =>
        rw [hds] at h
        simp [Except.bind] at h
      | ok ds0 =>
        rw [hds] at h
        simp only [Except.bind, Except.ok.injEq] at h
        rw [← h]
        simp [ih ds0 hds]

/-! ### Claim C2 -/

/-- Claim C2: the cleaning step (zero-masking then clipping) sends every
value at most 0 to missing, every positive value below 0.01 to 0.01, and
leaves every value at least 0.01 unchanged; on the concrete input
`[-1, 0, 0.001, 5]` it produces `[missing, missing, 0.01, 5]`. -/
theorem c2_cleaning_cases :
    (∀ xs : List (Option ℚ), clean_array xs = xs.map clean_value) ∧
    (∀ x : ℚ, x ≤ 0 → clean_value (some x) = none) ∧
    (∀ x : ℚ, 0 < x → x < 1/100 → clean_value (some x) = some (1/100)) ∧
    (∀ x : ℚ, 1/100 ≤ x → clean_value (some x) = some x) ∧
    clean_array [some (-1), some 0, some (1/1000), some 5] =
      [none, none, some (1/100), some 5] := by
  refine ⟨clean_array_eq_map, clean_value_nonpos, clean_value_small,
    clean_value_large, ?_⟩
  norm_num [clean_array, where_pos, clip_min]

/-- Closed instance of claim C2 at the inputs -1, 0.001 and 5. -/
theorem c2_witness :
    clean_value (some (-1)) = none ∧
    clean_value (some (1/1000)) = some (1/100) ∧
    clean_value (some 5) = some 5 :=
  ⟨c2_cleaning_cases.2.1 (-1) (by norm_num),
   c2_cleaning_cases.2.2.1 (1/1000) (by norm_num) (by norm_num),
   c2_cleaning_cases.2.2.2.1 5 (by norm_num)⟩

/-! ### Claim C9 -/

/-- Claim C9: clipping never resurrects masked entries — every cell that the
zero-mask `.where(lambda x: x > 0)` turned into missing is still missing
after `.clip(min=0.01)`. -/
theorem c9_clip_preserves_mask (xs : List (Option ℚ)) (i : Nat)
    (h : (xs.map where_pos)[i]? = some none) :
    (clean_array xs)[i]? = some none := by
  rw [List.getElem?_map] at h
  rcases hx : xs[i]? with _ | v
  · rw [hx] at h
    simp at h
  · rw [hx, Option.map_some'] at h
    have hv : where_pos v = none := Option.some.inj h
    simp only [clean_array, List.getElem?_map, hx, Option.map_some', hv]
    rfl

/-- Closed instance of claim C9: the cell -1 is masked and stays missing
after clipping. -/
theorem c9_witness :
    ([some (-1 : ℚ)].map where_pos)[0]? = some none ∧
    (clean_array [some (-1 : ℚ)])[0]? = some none :=
  ⟨by norm_num [where_pos],
   c9_clip_preserves_mask [some (-1 : ℚ)] 0 (by norm_num [where_pos])⟩

/-! ### Claim C10 -/

/-- Claim C10: the cleaning step is idempotent — masking-then-clipping an
already cleaned array changes nothing. -/
theorem c10_cleaning_idempotent (xs : List (Option ℚ)) :
    clean_array (clean_array xs) = clean_array xs := by
  rw [clean_array_eq_map, clean_array_eq_map, List.map_map]
  have hfun : clean_value ∘ clean_value = clean_value := funext clean_value_idem
  rw [hfun]

/-! ### Claim C7 -/

/-- Claim C7: whenever the extraction loop succeeds, the date list is the
granule-handle sequence mapped positionally through per-path extraction:
the i-th date comes from the i-th granule's path, with no reordering. -/
theorem c7_dates_positional_map {α : Type} :
    ∀ (fs : List (Granule α)) (ds : List Timestamp),
      extractDates fs = Except.ok ds →
      fs.map (fun f => extractDate f.path) = ds.map Except.ok := by
  intro fs
  induction fs with
  | nil =>
    intro ds h
    simp only [extractDates, Except.ok.injEq] at h
    rw [← h]
    rfl
  | cons f fs ih =>
    intro ds h
    rw [extractDates_cons] at h
    cases hd : extractDate f.path with
    | error e =>
      rw [hd] at h
      simp [Except.bind] at h
    | ok d =>
      rw [hd] at h
      cases hds : extractDates fs with
      | error e =>
        rw [hds] at h
        simp [Except.bind] at h
      | ok ds0 =>
        rw [hds] at h
        simp only [Except.bind, Except.ok.injEq] at h
        rw [← h]
        simp [List.map_cons, hd, ih ds0 hds]

/-- Closed instance of claim C7 on a concrete two-granule fileset. -/
theorem c7_witness :
    extractDates [(⟨"PACE_OCI.20240604.nc", ⟨1999, 1, 1⟩, 10⟩ : Granule Nat),
        ⟨"PACE_OCI.20240610.nc", ⟨1999, 1, 2⟩, 20⟩] =
      Except.ok [⟨2024, 6, 4⟩, ⟨2024, 6, 10⟩] ∧
    [(⟨"PACE_OCI.20240604.nc", ⟨1999, 1, 1⟩, 10⟩ : Granule Nat),
        ⟨"PACE_OCI.20240610.nc", ⟨1999, 1, 2⟩, 20⟩].map (fun f => extractDate f.path) =
      [(⟨2024, 6, 4⟩ : Timestamp), ⟨2024, 6, 10⟩].map Except.ok :=
  ⟨by rfl, c7_dates_positional_map _ _ (by rfl)⟩

/-! ### Claim C8 -/

/-- Claim C8: the count-mismatch branch is unreachable — if the extraction
loop completes without failing, the number of dates equals the number of
granules and the sanity check passes. -/
theorem c8_mismatch_unreachable {α : Type} (fs : List (Granule α))
    (ds : List Timestamp) (h : extractDates fs = Except.ok ds) :
    ds.length = fs.length ∧ sanityCheck ds fs = Except.ok () := by
  have hlen := extractDates_ok_length fs ds h
  refine ⟨hlen, ?_⟩
  simp [sanityCheck, hlen]

/-- Closed instance of claim C8 on a concrete one-granule fileset. -/
theorem c8_witness :
    extractDates [(⟨"PACE_OCI.20240604.nc", ⟨1999, 1, 1⟩, 10⟩ : Granule Nat)] =
      Except.ok [⟨2024, 6, 4⟩] ∧
    ([(⟨2024, 6, 4⟩ : Timestamp)].length =
      [(⟨"PACE_OCI.20240604.nc", ⟨1999, 1, 1⟩, 10⟩ : Granule Nat)].length ∧
     sanityCheck [⟨2024, 6, 4⟩]
       [(⟨"PACE_OCI.20240604.nc", ⟨1999, 1, 1⟩, 10⟩ : Granule Nat)] = Except.ok ()) :=
  ⟨by rfl, c8_mismatch_unreachable _ _ (by rfl)⟩

/-! ### Claim C4 -/

/-- Claim C4: when the date count differs from the file count, the code
after the loop fails with the error naming both counts, and the error is
the whole result — dataset assembly and coordinate correction are never
reached. -/
theorem c4_mismatch_error_before_assembly {α : Type} (dates : List Timestamp)
    (fileset : List (Granule α)) (h : dates.length ≠ fileset.length) :
    postLoop dates fileset =
      Except.error ("Mismatch: found " ++ toString dates.length ++ " dates for "
        ++ toString fileset.length ++ " files") := by
  have hs : sanityCheck dates fileset =
      Except.error ("Mismatch: found " ++ toString dates.length ++ " dates for "
        ++ toString fileset.length ++ " files") := by
    simp [sanityCheck, h]
  show Except.bind (sanityCheck dates fileset)
    (fun _ => assign_coords (open_mfdataset fileset) dates) = _
  rw [hs]
  rfl

/-- Closed instance of claim C4: one date against an empty fileset. -/
theorem c4_witness :
    ([(⟨2024, 6, 4⟩ : Timestamp)].length ≠ ([] : List (Granule Nat)).length) ∧
    postLoop [(⟨2024, 6, 4⟩ : Timestamp)] ([] : List (Granule Nat)) =
      Except.error ("Mismatch: found " ++ toString [(⟨2024, 6, 4⟩ : Timestamp)].length
        ++ " dates for " ++ toString ([] : List (Granule Nat)).length ++ " files") :=
  ⟨by decide, c4_mismatch_error_before_assembly _ _ (by decide)⟩

/-! ### Claim C3 -/

/-- Claim C3, counterexample to the unrestricted statement: in the fileset
`["PACE_OCI.99999999", "zzz"]` the path `zzz` has no substring matching the
pattern, yet the loop fails earlier, on the parse of `99999999`, with the
pandas format error — not with the script's error identifying `zzz`. -/
theorem c3_counterexample :
    searchPace ("zzz".toList) = none ∧
    extractDates [(⟨"PACE_OCI.99999999", ⟨1999, 1, 1⟩, 0⟩ : Granule Nat),
        ⟨"zzz", ⟨1999, 1, 1⟩, 1⟩] = Except.error formatErrMsg ∧
    formatErrMsg ≠ "Could not extract date from: zzz" :=
  ⟨by decide, by rfl, by decide⟩

/-- Claim C3 (amended): when every path before the first non-matching path
extracts successfully, the loop fails exactly at the first non-matching
path, with the error naming that path, and the result does not depend on
the paths after it — they are never processed. -/
theorem c3_fail_fast_first_unmatched {α : Type} :
    ∀ (pre : List (Granule α)) (bad : Granule α) (rest : List (Granule α))
      (ds : List Timestamp),
      extractDates pre = Except.ok ds →
      searchPace bad.path.toList = none →
      extractDates (pre ++ bad :: rest) =
        Except.error ("Could not extract date from: " ++ bad.path) := by
  intro pre
  induction pre with
  | nil =>
    intro bad rest ds h hbad
    rw [List.nil_append, extractDates_cons]
    have hb : extractDate bad.path =
        Except.error ("Could not extract date from: " ++ bad.path) := by
      unfold extractDate
      rw [hbad]
    rw [hb]
    rfl
  | cons f fs ih =>
    intro bad rest ds h hbad
    rw [extractDates_cons] at h
    cases hd : extractDate f.path with
    | error e =>
      rw [hd] at h
      simp [Except.bind] at h
    | ok d =>
      rw [hd] at h
      cases hds : extractDates fs with
      | error e =>
        rw [hds] at h
        simp [Except.bind] at h
      | ok ds0 =>
        rw [List.cons_append, extractDates_cons, hd, ih bad rest ds0 hds hbad]
        rfl

/-- Closed instance of amended claim C3: one good path, then a bad one,
then a later good path that is never reached. -/
theorem c3_witness :
    extractDates [(⟨"a/PACE_OCI.20240604.nc", ⟨1999, 1, 1⟩, 0⟩ : Granule Nat)] =
      Except.ok [⟨2024, 6, 4⟩] ∧
    searchPace ("no_date_here.nc".toList) = none ∧
    extractDates ([(⟨"a/PACE_OCI.20240604.nc", ⟨1999, 1, 1⟩, 0⟩ : Granule Nat)] ++
        (⟨"no_date_here.nc", ⟨1999, 1, 1⟩, 1⟩ : Granule Nat) ::
        [⟨"PACE_OCI.20241111.nc", ⟨1999, 1, 1⟩, 2⟩]) =
      Except.error ("Could not extract date from: " ++ "no_date_here.nc") :=
  ⟨by rfl, by decide, c3_fail_fast_first_unmatched _ _ _ _ (by rfl) (by decide)⟩

/-! ### Claim C5 -/

/-- Claim C5: when the pipeline succeeds, the time coordinate of the
corrected dataset is positionally identical to the extracted date
sequence — the lists are equal, length for length. -/
theorem c5_time_coord_positional {α : Type} (fs : List (Granule α))
    (dates : List Timestamp) (ds : Dataset α)
    (h1 : extractDates fs = Except.ok dates)
    (h2 : processPipeline fs = Except.ok ds) :
    ds.time = dates ∧ ds.time.length = dates.length := by
  have hlen := extractDates_ok_length fs dates h1
  have hpp : processPipeline fs = postLoop dates fs := by
    show Except.bind (extractDates fs) (fun d => postLoop d fs) = _
    rw [h1]
    rfl
  rw [hpp] at h2
  have hs : sanityCheck dates fs = Except.ok () := by simp [sanityCheck, hlen]
  have hpost : postLoop dates fs = assign_coords (open_mfdataset fs) dates := by
    show Except.bind (sanityCheck dates fs)
      (fun _ => assign_coords (open_mfdataset fs) dates) = _
    rw [hs]
    rfl
  rw [hpost] at h2
  have hslen : (open_mfdataset fs).slices.length = fs.length := by
    simp [open_mfdataset]
  have hac : assign_coords (open_mfdataset fs) dates =
      Except.ok ⟨dates, (open_mfdataset fs).slices⟩ := by
    simp [assign_coords, hlen, hslen]
  rw [hac] at h2
  rw [← Except.ok.inj h2]
  exact ⟨rfl, rfl⟩

/-- Closed instance of claim C5 on a concrete two-granule fileset. -/
theorem c5_witness :
    ({ time := [⟨2024, 6, 4⟩, ⟨2024, 6, 10⟩], slices := [10, 20] } : Dataset Nat).time =
      [(⟨2024, 6, 4⟩ : Timestamp), ⟨2024, 6, 10⟩] ∧
    ({ time := [⟨2024, 6, 4⟩, ⟨2024, 6, 10⟩], slices := [10, 20] } : Dataset Nat).time.length =
      [(⟨2024, 6, 4⟩ : Timestamp), ⟨2024, 6, 10⟩].length :=
  c5_time_coord_positional
    [⟨"PACE_OCI.20240604.nc", ⟨1999, 1, 1⟩, 10⟩, ⟨"PACE_OCI.20240610.nc", ⟨1999, 1, 2⟩, 20⟩]
    [⟨2024, 6, 4⟩, ⟨2024, 6, 10⟩]
    { time := [⟨2024, 6, 4⟩, ⟨2024, 6, 10⟩], slices := [10, 20] }
    (by rfl) (by rfl)

/-! ### Claim C1 -/

/-- Positional split of the numeric value of an eight-digit string: the
fixed-width parse of `to_datetime` recovers the digit groups that the plain
`YYYYMMDD` reading takes. -/
lemma digitsToNat_split (g : List Char) (h8 : g.length = 8)
    (hd : g.all isDigitChar = true) :
    digitsToNat g / 10000 = digitsToNat (g.take 4) ∧
    digitsToNat g / 100 % 100 = digitsToNat ((g.drop 4).take 2) ∧
    digitsToNat g % 100 = digitsToNat (g.drop 6) := by
  rcases g with _ | ⟨c0, _ | ⟨c1, _ | ⟨c2, _ | ⟨c3, _ | ⟨c4, _ | ⟨c5, _ | ⟨c6, _ | ⟨c7, _ | ⟨c8, g⟩⟩⟩⟩⟩⟩⟩⟩⟩ <;>
    simp only [List.length_nil, List.length_cons] at h8 <;> try omega
  simp only [List.all_cons, List.all_nil, Bool.and_eq_true, isDigitChar,
    decide_eq_true_eq] at hd
  obtain ⟨⟨b0a, b0b⟩, ⟨b1a, b1b⟩, ⟨b2a, b2b⟩, ⟨b3a, b3b⟩, ⟨b4a, b4b⟩,
    ⟨b5a, b5b⟩, ⟨b6a, b6b⟩, ⟨b7a, b7b⟩, _⟩ := hd
  simp only [digitsToNat, List.foldl, List.take, List.drop]
  refine ⟨?_, ?_, ?_⟩ <;> omega

/-- Claim C1, counterexample to the unrestricted statement: the path
`PACE_OCI.99999999` contains the literal token followed by 8 digits (the
regex search captures them), yet extraction does not succeed — the digits
do not encode a calendar date and `pd.to_datetime` fails. -/
theorem c1_counterexample :
    searchPace ("PACE_OCI.99999999".toList) = some ("99999999".toList) ∧
    extractDate "PACE_OCI.99999999" = Except.error formatErrMsg :=
  ⟨by decide, by rfl⟩

/-- Claim C1 (amended): for every granule path whose leftmost
`PACE_OCI.<8digits>` match captures a digit group that, read as `YYYYMMDD`,
encodes a valid calendar date within the pandas `Timestamp` range,
extraction succeeds and returns exactly that calendar date. -/
theorem c1_extraction_valid_dates (p : String) (g : List Char) (t : Timestamp)
    (h1 : searchPace p.toList = some g)
    (h2 : specDecodeYYYYMMDD g = some t)
    (h3 : calendarOk t.year t.month t.day = true)
    (h4 : tsBoundsOk t.year t.month t.day = true) :
    extractDate p = Except.ok t := by
  unfold specDecodeYYYYMMDD at h2
  by_cases hg : (g.length == 8 && g.all isDigitChar) = true
  case neg =>
    rw [if_neg hg] at h2
    exact absurd h2 (by simp)
  case pos =>
    rw [if_pos hg] at h2
    have hlen : g.length = 8 := by
      simpa using ((Bool.and_eq_true _ _).mp hg).1
    have hall : g.all isDigitChar = true := ((Bool.and_eq_true _ _).mp hg).2
    obtain ⟨e1, e2, e3⟩ := digitsToNat_split g hlen hall
    rcases t with ⟨ty, tm, td⟩
    have hy : digitsToNat (g.take 4) = ty :=
      congrArg Timestamp.year (Option.some.inj h2)
    have hm : digitsToNat ((g.drop 4).take 2) = tm :=
      congrArg Timestamp.month (Option.some.inj h2)
    have hdd : digitsToNat (g.drop 6) = td :=
      congrArg Timestamp.day (Option.some.inj h2)
    unfold extractDate
    rw [h1]
    show to_datetime g = Except.ok (Timestamp.mk ty tm td)
    unfold to_datetime
    rw [if_pos hg]
    show (if calendarOk (digitsToNat g / 10000) (digitsToNat g / 100 % 100)
          (digitsToNat g % 100) = true
        then if tsBoundsOk (digitsToNat g / 10000) (digitsToNat g / 100 % 100)
            (digitsToNat g % 100) = true
          then Except.ok (Timestamp.mk (digitsToNat g / 10000)
            (digitsToNat g / 100 % 100) (digitsToNat g % 100))
          else Except.error oobErrMsg
        else Except.error formatErrMsg) = Except.ok (Timestamp.mk ty tm td)
    rw [e1, e2, e3, hy, hm, hdd]
    dsimp only at h3 h4
    rw [if_pos h3, if_pos h4]

/-- Closed instance of amended claim C1, realising the spec's example: a
path containing `PACE_OCI.20240604` yields the date 2024-06-04. -/
theorem c1_witness :
    extractDate "ob/PACE_OCI.20240604.L3m_DAY_CHL_4km.nc" =
      Except.ok ⟨2024, 6, 4⟩ :=
  c1_extraction_valid_dates "ob/PACE_OCI.20240604.L3m_DAY_CHL_4km.nc"
    ("20240604".toList) ⟨2024, 6, 4⟩ (by decide) (by rfl) (by rfl) (by rfl)

/-! ### Claim C6 -/

/-- Claim C6, counterexample: on the axis 2024-06-04, 2024-06-10 the target
2024-06-07 is an exact tie, three days from each label, and nearest-time
selection does not pick the 2024-06-04 slice. -/
theorem c6_counterexample :
    (ordOf ⟨2024, 6, 7⟩ - ordOf ⟨2024, 6, 4⟩ = 3 ∧
     ordOf ⟨2024, 6, 10⟩ - ordOf ⟨2024, 6, 7⟩ = 3) ∧
    sel_time_nearest dsJune ⟨2024, 6, 7⟩ ≠ some (⟨2024, 6, 4⟩, 0) := by
  refine ⟨⟨by decide, by decide⟩, ?_⟩
  decide

/-- Claim C6 (amended): nearest-time selection on the axis 2024-06-04,
2024-06-10 with target 2024-06-07 selects the 2024-06-10 slice — pandas
breaks the exact-distance tie towards the later label on a monotonically
increasing axis. -/
theorem c6_nearest_tie_later :
    sel_time_nearest dsJune ⟨2024, 6, 7⟩ = some (⟨2024, 6, 10⟩, 1) := by
  decide

end PaceWest
